import Mathlib

/-!
Shallow embedding of `rekall-core/rekall/plugins/windows/filescan.py`:
pool-scanner signature catalogs (check chains), the process pool scanner
with its directory-table-base and list-pointer filters, and the
materializers for file, mutant and process candidates, together with the
cross-reference flag computation of `PSScan.collect`.

External collaborators (the address spaces, the type profile, `IterObject`
multi-object extraction and the generic check evaluation of
`common.PoolScanner`) are not under src; where their behaviour decides a
property they are modelled from the spec, and each such definition says so
in its doc comment.  Everything else is translated directly from the
source.
-/

/-- Allocation state of a pool allocation: paged pool, non-paged pool, or a
freed allocation.  (Spec section 3, `allowed_states`.) -/
inductive PoolState where
  | paged
  | nonPaged
  | free
deriving DecidableEq, Repr

/-- A pool-header candidate as seen by the check chain: the 4-byte tag
(collapsed to one number, since all checks compare it atomically), the
declared allocation size, the allocation state and the pool index.
(Spec section 3, `PoolHeaderCandidate`.) -/
structure PoolHeaderCandidate where
  tag : Nat
  declaredSize : Nat
  state : PoolState
  poolIndex : Nat
deriving DecidableEq, Repr

/-- The size condition carried by a `CheckPoolSize` entry: either a minimum
size (`min_size=...` in the source) or the custom strict comparator
`condition=lambda x: x > ...` used by `PoolScanDriver.__init__`. -/
inductive SizeCond where
  | minSize (n : Nat)
  | strictGreater (n : Nat)
deriving DecidableEq, Repr

/-- One entry of a scanner's `self.checks` list, mirroring the four check
names configured in `filescan.py`. -/
inductive Check where
  | poolTagCheck (tag : Nat)
  | checkPoolSize (cond : SizeCond)
  | checkPoolType (paged nonPaged free : Bool)
  | checkPoolIndex (value : Nat)
deriving DecidableEq, Repr

/-- Modelled from the spec: the check classes `PoolTagCheck`,
`CheckPoolSize`, `CheckPoolType` and `CheckPoolIndex` live in
`common.PoolScanner`, which is not under src.  Their semantics follow the
spec (sections 3 and 4.1): tag bytes match exactly; the declared size
satisfies the size condition (`≥ min_size`, or the custom comparator);
the allocation state is among the allowed states; the pool index equals
the configured value. -/
def Check.eval : Check → PoolHeaderCandidate → Bool
  | .poolTagCheck t, c => c.tag == t
  | .checkPoolSize (.minSize n), c => decide (n ≤ c.declaredSize)
  | .checkPoolSize (.strictGreater n), c => decide (n < c.declaredSize)
  | .checkPoolType allowPaged allowNonPaged allowFree, c =>
      match c.state with
      | .paged => allowPaged
      | .nonPaged => allowNonPaged
      | .free => allowFree
  | .checkPoolIndex v, c => c.poolIndex == v

/-- Modelled from the spec: the generic scanner evaluates the full check
chain with short-circuit rejection on first failure (spec section 4.1);
a candidate is yielded iff every check passes. -/
def runChecks (cs : List Check) (c : PoolHeaderCandidate) : Bool :=
  cs.all (fun ch => ch.eval c)

/-- The external type profile (spec section 6): pool-tag constants and
object sizes consumed by the scanners, plus the `MmSystemRangeStart`
constant (`none` when the profile lacks it). -/
structure Profile where
  filePoolTag : Nat
  driverPoolTag : Nat
  symlinkPoolTag : Nat
  mutantPoolTag : Nat
  eprocessPoolTag : Nat
  fileObjectSize : Nat
  driverObjectSize : Nat
  symbolicLinkSize : Nat
  kmutantSize : Nat
  eprocessSize : Nat
  mmSystemRangeStart : Option Nat
deriving DecidableEq, Repr

/-- `PoolScanFile.__init__`: tag `FILE_POOLTAG`, minimum size of
`_FILE_OBJECT`, all pool states allowed, pool index 0. -/
def PoolScanFile.checks (prof : Profile) : List Check :=
  [ .poolTagCheck prof.filePoolTag,
    .checkPoolSize (.minSize prof.fileObjectSize),
    .checkPoolType true true true,
    .checkPoolIndex 0 ]

/-- `PoolScanDriver.__init__`: tag `DRIVER_POOLTAG`, custom size condition
`lambda x: x > self.profile.get_obj_size("_DRIVER_OBJECT")`, all pool
states allowed, pool index 0. -/
def PoolScanDriver.checks (prof : Profile) : List Check :=
  [ .poolTagCheck prof.driverPoolTag,
    .checkPoolSize (.strictGreater prof.driverObjectSize),
    .checkPoolType true true true,
    .checkPoolIndex 0 ]

/-- `PoolScanSymlink.__init__`: tag `SYMLINK_POOLTAG`, minimum size of
`_OBJECT_SYMBOLIC_LINK`, all pool states allowed — and no pool-index
check. -/
def PoolScanSymlink.checks (prof : Profile) : List Check :=
  [ .poolTagCheck prof.symlinkPoolTag,
    .checkPoolSize (.minSize prof.symbolicLinkSize),
    .checkPoolType true true true ]

/-- `PoolScanMutant.__init__`: tag `MUTANT_POOLTAG`, minimum size of
`_KMUTANT`, all pool states allowed, pool index 0. -/
def PoolScanMutant.checks (prof : Profile) : List Check :=
  [ .poolTagCheck prof.mutantPoolTag,
    .checkPoolSize (.minSize prof.kmutantSize),
    .checkPoolType true true true,
    .checkPoolIndex 0 ]

/-- `PoolScanProcess.__init__` check list: tag `EPROCESS_POOLTAG`, minimum
size of `_EPROCESS`, all pool states allowed, pool index 0. -/
def PoolScanProcess.checks (prof : Profile) : List Check :=
  [ .poolTagCheck prof.eprocessPoolTag,
    .checkPoolSize (.minSize prof.eprocessSize),
    .checkPoolType true true true,
    .checkPoolIndex 0 ]

/-- An `_EPROCESS` candidate extracted from a pool allocation, with the
fields `PoolScanProcess.scan` and `PSScan.collect` read:
`Pcb.DirectoryTableBase`, `ActiveProcessLinks.Flink` / `.Blink`,
`UniqueProcessId`, `InheritedFromUniqueProcessId`, the object offset, and
the timestamps. -/
structure EProcessCandidate where
  objOffset : Nat
  directoryTableBase : Nat
  flink : Nat
  blink : Nat
  uniqueProcessId : Nat
  inheritedFromUniqueProcessId : Nat
  createTime : Nat
  exitTime : Nat
deriving DecidableEq, Repr

/-- A pool allocation that matched in a process scan: its header candidate
(fed to the check chain), its `FreePool` flag, and the `_EPROCESS`
candidates embedded in it.  Modelled from the spec: the `IterObject`
multi-object extraction is external, so the embedded object bodies are
carried as a list. -/
structure ProcessPoolObj where
  header : PoolHeaderCandidate
  freePool : Bool
  objects : List EProcessCandidate
deriving DecidableEq, Repr

/-- The state `PoolScanProcess.__init__` builds once at construction: the
kernel/user boundary, the check chain, and the directory-table-base
alignment. -/
structure PoolScanProcessState where
  kernel : Nat
  checks : List Check
  dtbAlignment : Nat
deriving DecidableEq, Repr

/-- `PoolScanProcess.__init__`: the kernel boundary is
`get_constant_object("MmSystemRangeStart", "Pointer").v() or 0x80000000`
(an absent constant resolves falsy, as does the value 0, so both fall
back to `0x80000000`); the DTB alignment is `0x20` when the kernel
address space reports the `pae` capability and `0x1000` otherwise. -/
def PoolScanProcess.init (prof : Profile) (pae : Bool) : PoolScanProcessState :=
  { kernel :=
      match prof.mmSystemRangeStart with
      | none => 0x80000000
      | some v => if v = 0 then 0x80000000 else v
    checks := PoolScanProcess.checks prof
    dtbAlignment := if pae then 0x20 else 0x1000 }

/-- The three candidate guards in the body of `PoolScanProcess.scan`, in
source order: `continue` when the directory table base is 0, when it is
misaligned for `self.dtb_alignment`, or when `Flink` or `Blink` lies
below `self.kernel`. -/
def PoolScanProcess.acceptObject (st : PoolScanProcessState) (e : EProcessCandidate) : Bool :=
  if e.directoryTableBase = 0 then false
  else if ¬ e.directoryTableBase % st.dtbAlignment = 0 then false
  else if e.flink < st.kernel ∨ e.blink < st.kernel then false
  else true

/-- `PoolScanProcess.scan`: the inherited generic scan yields the pool
allocations passing the check chain (modelled from the spec, section
4.2); for each embedded `_EPROCESS` candidate the three guards above are
applied and surviving `(pool, eprocess)` pairs are yielded. -/
def PoolScanProcess.scan (st : PoolScanProcessState) (pools : List ProcessPoolObj) :
    List (ProcessPoolObj × EProcessCandidate) :=
  (pools.filter (fun p => runChecks st.checks p.header)).flatMap
    (fun p => (p.objects.filter (fun e => PoolScanProcess.acceptObject st e)).map
      (fun e => (p, e)))

lemma acceptObject_eq_true_iff (st : PoolScanProcessState) (e : EProcessCandidate) :
    PoolScanProcess.acceptObject st e = true ↔
      e.directoryTableBase ≠ 0 ∧ e.directoryTableBase % st.dtbAlignment = 0 ∧
        ¬ (e.flink < st.kernel ∨ e.blink < st.kernel) := by
  unfold PoolScanProcess.acceptObject
  split_ifs with h1 h2 h3 <;> simp_all

lemma mem_poolScanProcess_scan_iff (st : PoolScanProcessState)
    (pools : List ProcessPoolObj) (p : ProcessPoolObj) (e : EProcessCandidate) :
    (p, e) ∈ PoolScanProcess.scan st pools ↔
      p ∈ pools ∧ runChecks st.checks p.header = true ∧ e ∈ p.objects ∧
        (e.directoryTableBase ≠ 0 ∧ e.directoryTableBase % st.dtbAlignment = 0 ∧
          ¬ (e.flink < st.kernel ∨ e.blink < st.kernel)) := by
  unfold PoolScanProcess.scan
  simp only [List.mem_flatMap, List.mem_map, List.mem_filter, Prod.mk.injEq]
  constructor
  · rintro ⟨q, ⟨hq, hchk⟩, f, ⟨hf, hacc⟩, hqp, hfe⟩
    subst hqp; subst hfe
    exact ⟨hq, hchk, hf, (acceptObject_eq_true_iff st f).mp hacc⟩
  · rintro ⟨hp, hchk, he, hacc⟩
    exact ⟨p, ⟨hp, hchk⟩, e, ⟨he, (acceptObject_eq_true_iff st e).mpr hacc⟩, rfl, rfl⟩

/-- Concrete profile used by the witnesses: distinct small tags and sizes,
no `MmSystemRangeStart` constant. -/
def exProfile : Profile :=
  { filePoolTag := 1, driverPoolTag := 2, symlinkPoolTag := 3,
    mutantPoolTag := 4, eprocessPoolTag := 5,
    fileObjectSize := 16, driverObjectSize := 24, symbolicLinkSize := 8,
    kmutantSize := 12, eprocessSize := 32, mmSystemRangeStart := none }

/-- A pool header passing the process check chain of `exProfile`. -/
def exHeader : PoolHeaderCandidate :=
  { tag := 5, declaredSize := 32, state := .nonPaged, poolIndex := 0 }

/-- An `_EPROCESS` candidate passing all guards of `PoolScanProcess.scan`
under `exProfile` with `pae = false`. -/
def exEproc : EProcessCandidate :=
  { objOffset := 100, directoryTableBase := 0x1000,
    flink := 0x80000000, blink := 0x80000000,
    uniqueProcessId := 7, inheritedFromUniqueProcessId := 1,
    createTime := 5, exitTime := 0 }

/-- `exEproc` with directory table base 0. -/
def exBadDtbEproc : EProcessCandidate :=
  { exEproc with directoryTableBase := 0 }

/-- A process pool allocation holding `exEproc`. -/
def exPool : ProcessPoolObj :=
  { header := exHeader, freePool := false, objects := [exEproc] }

/-- `exEproc` with a directory table base aligned only to `0x20`. -/
def exEprocPae : EProcessCandidate :=
  { exEproc with directoryTableBase := 0x20 }

/-- A process pool allocation holding `exEprocPae`. -/
def exPoolPae : ProcessPoolObj :=
  { header := exHeader, freePool := false, objects := [exEprocPae] }

/-- Claim C2: a process candidate whose directory table base is 0, or not a
multiple of the active mode's alignment, is rejected by
`PoolScanProcess.scan` and produces no row; every pair the scan yields has
a nonzero, correctly aligned directory table base. -/
theorem psscan_rejects_zero_or_misaligned_dtb (prof : Profile) (pae : Bool)
    (pools : List ProcessPoolObj) (p : ProcessPoolObj) (e : EProcessCandidate)
    (h : e.directoryTableBase = 0 ∨
      ¬ e.directoryTableBase % (PoolScanProcess.init prof pae).dtbAlignment = 0) :
    (p, e) ∉ PoolScanProcess.scan (PoolScanProcess.init prof pae) pools ∧
    ∀ q f, (q, f) ∈ PoolScanProcess.scan (PoolScanProcess.init prof pae) pools →
      f.directoryTableBase ≠ 0 ∧
        f.directoryTableBase % (PoolScanProcess.init prof pae).dtbAlignment = 0 := by
  constructor
  · intro hmem
    rw [mem_poolScanProcess_scan_iff] at hmem
    rcases h with h0 | hmis
    · exact hmem.2.2.2.1 h0
    · exact hmis hmem.2.2.2.2.1
  · intro q f hmem
    rw [mem_poolScanProcess_scan_iff] at hmem
    exact ⟨hmem.2.2.2.1, hmem.2.2.2.2.1⟩

/-- Witness for C2 at a concrete input: the planted candidate with
directory table base 0 is absent from the scan output. -/
theorem psscan_rejects_zero_or_misaligned_dtb_witness :
    (exPool, exBadDtbEproc) ∉
      PoolScanProcess.scan (PoolScanProcess.init exProfile false) [exPool] :=
  (psscan_rejects_zero_or_misaligned_dtb exProfile false [exPool] exPool
    exBadDtbEproc (Or.inl rfl)).1

/-- Claim C3: if either `Flink` or `Blink` lies below the kernel boundary
the candidate is rejected by `PoolScanProcess.scan`; with both pointers at
or above the boundary (and the other guards satisfied) it is yielded. -/
theorem psscan_list_pointer_boundary (prof : Profile) (pae : Bool)
    (pools : List ProcessPoolObj) (p : ProcessPoolObj) (e : EProcessCandidate)
    (hp : p ∈ pools)
    (hchk : runChecks (PoolScanProcess.init prof pae).checks p.header = true)
    (he : e ∈ p.objects) :
    ((e.flink < (PoolScanProcess.init prof pae).kernel ∨
        e.blink < (PoolScanProcess.init prof pae).kernel) →
      (p, e) ∉ PoolScanProcess.scan (PoolScanProcess.init prof pae) pools) ∧
    ((PoolScanProcess.init prof pae).kernel ≤ e.flink →
      (PoolScanProcess.init prof pae).kernel ≤ e.blink →
      e.directoryTableBase ≠ 0 →
      e.directoryTableBase % (PoolScanProcess.init prof pae).dtbAlignment = 0 →
      (p, e) ∈ PoolScanProcess.scan (PoolScanProcess.init prof pae) pools) := by
  constructor
  · intro hlow hmem
    rw [mem_poolScanProcess_scan_iff] at hmem
    exact hmem.2.2.2.2.2 hlow
  · intro hf hb h0 hal
    rw [mem_poolScanProcess_scan_iff]
    exact ⟨hp, hchk, he, h0, hal, by omega⟩

/-- Witness for C3 at a concrete input: a candidate with both list pointers
exactly at the boundary is yielded by the scan. -/
theorem psscan_list_pointer_boundary_witness :
    (exPool, exEproc) ∈
      PoolScanProcess.scan (PoolScanProcess.init exProfile false) [exPool] :=
  (psscan_list_pointer_boundary exProfile false [exPool] exPool exEproc
      (List.mem_singleton.mpr rfl) (by decide) (List.mem_singleton.mpr rfl)).2
    (by decide) (by decide) (by decide) (by decide)

/-- Claim C4: the directory-table-base alignment is fixed at construction
from the `pae` capability — `0x20` under PAE, `0x1000` otherwise — and a
candidate misaligned for the active mode is rejected while a correctly
aligned one passes this check. -/
theorem psscan_dtb_alignment_mode (prof : Profile) (pae : Bool)
    (pools : List ProcessPoolObj) (p : ProcessPoolObj) (e : EProcessCandidate)
    (hp : p ∈ pools)
    (hchk : runChecks (PoolScanProcess.init prof pae).checks p.header = true)
    (he : e ∈ p.objects)
    (h0 : e.directoryTableBase ≠ 0)
    (hf : (PoolScanProcess.init prof pae).kernel ≤ e.flink)
    (hb : (PoolScanProcess.init prof pae).kernel ≤ e.blink) :
    ((PoolScanProcess.init prof pae).dtbAlignment =
        if pae then 0x20 else 0x1000) ∧
    (¬ e.directoryTableBase % (if pae then 0x20 else 0x1000) = 0 →
      (p, e) ∉ PoolScanProcess.scan (PoolScanProcess.init prof pae) pools) ∧
    (e.directoryTableBase % (if pae then 0x20 else 0x1000) = 0 →
      (p, e) ∈ PoolScanProcess.scan (PoolScanProcess.init prof pae) pools) := by
  have halign : (PoolScanProcess.init prof pae).dtbAlignment =
      if pae then 0x20 else 0x1000 := rfl
  refine ⟨halign, ?_, ?_⟩
  · intro hmis hmem
    rw [mem_poolScanProcess_scan_iff, halign] at hmem
    exact hmis hmem.2.2.2.2.1
  · intro hal
    rw [mem_poolScanProcess_scan_iff, halign]
    exact ⟨hp, hchk, he, h0, hal, by omega⟩

/-- Witness for C4 at a concrete input: under PAE the alignment is `0x20`
and a candidate with directory table base `0x20` is yielded. -/
theorem psscan_dtb_alignment_mode_witness :
    (PoolScanProcess.init exProfile true).dtbAlignment = 0x20 ∧
    (exPoolPae, exEprocPae) ∈
      PoolScanProcess.scan (PoolScanProcess.init exProfile true) [exPoolPae] :=
  ⟨(psscan_dtb_alignment_mode exProfile true [exPoolPae] exPoolPae exEprocPae
      (List.mem_singleton.mpr rfl) (by decide) (List.mem_singleton.mpr rfl)
      (by decide) (by decide) (by decide)).1,
   (psscan_dtb_alignment_mode exProfile true [exPoolPae] exPoolPae exEprocPae
      (List.mem_singleton.mpr rfl) (by decide) (List.mem_singleton.mpr rfl)
      (by decide) (by decide) (by decide)).2.2 (by decide)⟩

/-- A `_FILE_OBJECT` candidate as `FileScan.generate_hits` inspects it:
the filename string resolved through the kernel address space
(`FileName.v`, empty when unreachable) and whether the dereferenced
device object's `DeviceType.is_valid()` holds (external validity
predicate, carried as a boolean). -/
structure FileObjectCandidate where
  fileName : String
  deviceTypeValid : Bool
deriving DecidableEq, Repr

/-- A pool allocation in a file scan: header candidate, `FreePool` flag and
the embedded file-object candidates (`IterObject("File", freed=True)`,
modelled from the spec as a list). -/
structure FilePoolObj where
  header : PoolHeaderCandidate
  freePool : Bool
  objects : List FileObjectCandidate
deriving DecidableEq, Repr

namespace FileScan

/-- `FileScan.generate_hits`: scan the pools through `PoolScanFile`'s check
chain; for each embedded file object, `continue` when the filename
resolves empty (falsy) and `continue` when the device type is not valid;
yield the surviving `(pool, file)` pairs. -/
def generate_hits (prof : Profile) (pools : List FilePoolObj) :
    List (FilePoolObj × FileObjectCandidate) :=
  (pools.filter (fun p => runChecks (PoolScanFile.checks prof) p.header)).flatMap
    (fun p => (p.objects.filter
        (fun f => !(f.fileName == "") && f.deviceTypeValid)).map
      (fun f => (p, f)))

end FileScan

lemma mem_fileScan_generate_hits_iff (prof : Profile) (pools : List FilePoolObj)
    (p : FilePoolObj) (f : FileObjectCandidate) :
    (p, f) ∈ FileScan.generate_hits prof pools ↔
      p ∈ pools ∧ runChecks (PoolScanFile.checks prof) p.header = true ∧
        f ∈ p.objects ∧ f.fileName ≠ "" ∧ f.deviceTypeValid = true := by
  unfold FileScan.generate_hits
  simp only [List.mem_flatMap, List.mem_map, List.mem_filter, Prod.mk.injEq,
    Bool.and_eq_true, Bool.not_eq_true', beq_eq_false_iff_ne, ne_eq]
  constructor
  · rintro ⟨q, ⟨hq, hchk⟩, g, ⟨hg, hname, hdev⟩, hqp, hgf⟩
    subst hqp; subst hgf
    exact ⟨hq, hchk, hg, hname, hdev⟩
  · rintro ⟨hp, hchk, hf, hname, hdev⟩
    exact ⟨p, ⟨hp, hchk⟩, f, ⟨hf, hname, hdev⟩, rfl, rfl⟩

/-- Claim C5: a file-object candidate yields a row only when its filename
resolves non-empty and its device type is valid; a candidate with an empty
filename or an invalid device type is silently dropped — it appears
nowhere in the hits, so no (partial) row is emitted for it. -/
theorem filescan_drops_empty_name_or_invalid_device (prof : Profile)
    (pools : List FilePoolObj) (p : FilePoolObj) (f : FileObjectCandidate)
    (h : f.fileName = "" ∨ f.deviceTypeValid = false) :
    (p, f) ∉ FileScan.generate_hits prof pools ∧
    ∀ q g, (q, g) ∈ FileScan.generate_hits prof pools →
      g.fileName ≠ "" ∧ g.deviceTypeValid = true := by
  constructor
  · intro hmem
    rw [mem_fileScan_generate_hits_iff] at hmem
    rcases h with he | hd
    · exact hmem.2.2.2.1 he
    · rw [hmem.2.2.2.2] at hd
      exact Bool.noConfusion hd
  · intro q g hmem
    rw [mem_fileScan_generate_hits_iff] at hmem
    exact ⟨hmem.2.2.2.1, hmem.2.2.2.2⟩

/-- A file pool allocation holding one candidate with a valid device type
but an empty filename. -/
def exFilePool : FilePoolObj :=
  { header := { tag := 1, declaredSize := 16, state := .paged, poolIndex := 0 },
    freePool := false,
    objects := [{ fileName := "", deviceTypeValid := true }] }

/-- Witness for C5 at a concrete input: the empty-filename candidate is
absent from the hits. -/
theorem filescan_drops_empty_name_or_invalid_device_witness :
    (exFilePool, { fileName := "", deviceTypeValid := true : FileObjectCandidate }) ∉
      FileScan.generate_hits exProfile [exFilePool] :=
  (filescan_drops_empty_name_or_invalid_device exProfile [exFilePool] exFilePool
    { fileName := "", deviceTypeValid := true } (Or.inl rfl)).1

/-- Claim C6: the driver scanner's size check is strict — an allocation
whose declared size equals the size of `_DRIVER_OBJECT` fails the check
chain, while one with a matching tag, pool index 0 and a strictly greater
declared size passes it. -/
theorem poolscandriver_size_check_strict (prof : Profile) (c : PoolHeaderCandidate) :
    (c.declaredSize = prof.driverObjectSize →
      runChecks (PoolScanDriver.checks prof) c = false) ∧
    (c.tag = prof.driverPoolTag → c.poolIndex = 0 →
      prof.driverObjectSize < c.declaredSize →
      runChecks (PoolScanDriver.checks prof) c = true) := by
  constructor
  · intro heq
    simp [runChecks, PoolScanDriver.checks, Check.eval, heq]
  · intro htag hidx hlt
    cases hst : c.state <;>
      simp [runChecks, PoolScanDriver.checks, Check.eval, htag, hidx, hlt, hst]

/-- Witness for C6 at a concrete input: a driver-tagged allocation of
declared size exactly `driverObjectSize` is rejected, and one byte more is
accepted. -/
theorem poolscandriver_size_check_strict_witness :
    runChecks (PoolScanDriver.checks exProfile)
      { tag := 2, declaredSize := 24, state := .nonPaged, poolIndex := 0 } = false ∧
    runChecks (PoolScanDriver.checks exProfile)
      { tag := 2, declaredSize := 25, state := .nonPaged, poolIndex := 0 } = true :=
  ⟨(poolscandriver_size_check_strict exProfile
      { tag := 2, declaredSize := 24, state := .nonPaged, poolIndex := 0 }).1 rfl,
   (poolscandriver_size_check_strict exProfile
      { tag := 2, declaredSize := 25, state := .nonPaged, poolIndex := 0 }).2
     rfl rfl (by decide)⟩

/-- A `_KMUTANT` candidate as `MutantScan` inspects it: the resolved
object name (`NameInfo.Name.v`, empty when absent), the fields read by
`render` (`OwnerThread`, `Header.SignalState`, the object counts and the
mutant body offset). -/
structure MutantObjectCandidate where
  name : String
  ownerThread : Nat
  signalState : Nat
  pointerCount : Nat
  handleCount : Nat
  objOffset : Nat
deriving DecidableEq, Repr

/-- A pool allocation in a mutant scan: header candidate, `FreePool` flag
and the embedded mutant candidates (`IterObject("Mutant", freed=True)`,
modelled from the spec as a list). -/
structure MutantPoolObj where
  header : PoolHeaderCandidate
  freePool : Bool
  objects : List MutantObjectCandidate
deriving DecidableEq, Repr

/-- One row of `MutantScan.render`'s table, in the source's column order. -/
structure MutantRow where
  allocated : String
  offsetP : Nat
  ptrCount : Nat
  hndCount : Nat
  signal : Nat
  thread : Nat
  cid : String
  name : String
deriving DecidableEq, Repr

namespace MutantScan

/-- `MutantScan.generate_hits`: scan the pools through `PoolScanMutant`'s
check chain; for each embedded mutant, `continue` when
`self.plugin_args.verbosity < 5 and not object_name`; yield the surviving
`(pool, mutant)` pairs. -/
def generate_hits (prof : Profile) (verbosity : Nat) (pools : List MutantPoolObj) :
    List (MutantPoolObj × MutantObjectCandidate) :=
  (pools.filter (fun p => runChecks (PoolScanMutant.checks prof) p.header)).flatMap
    (fun p => (p.objects.filter
        (fun m => !(decide (verbosity < 5) && (m.name == "")))).map
      (fun m => (p, m)))

/-- `MutantScan.render`: one table row per hit.  The owning-thread
resolution (`_ETHREAD` at `OwnerThread` in the kernel address space,
yielding `Cid.UniqueProcess` and `Cid.UniqueThread`) is external and is
carried as the `resolver` function; the CID column is
`"{UniqueProcess}:{UniqueThread}"` when `OwnerThread > 0x80000000` and the
empty string otherwise. -/
def render (prof : Profile) (verbosity : Nat) (pools : List MutantPoolObj)
    (resolver : Nat → Nat × Nat) : List MutantRow :=
  (generate_hits prof verbosity pools).map (fun pm =>
    let cid : String :=
      if 0x80000000 < pm.2.ownerThread then
        toString (resolver pm.2.ownerThread).1 ++ ":" ++
          toString (resolver pm.2.ownerThread).2
      else ""
    { allocated := if pm.1.freePool then "F" else ""
      offsetP := pm.2.objOffset
      ptrCount := pm.2.pointerCount
      hndCount := pm.2.handleCount
      signal := pm.2.signalState
      thread := pm.2.ownerThread
      cid := cid
      name := pm.2.name })

end MutantScan

lemma mem_mutantScan_generate_hits_iff (prof : Profile) (verbosity : Nat)
    (pools : List MutantPoolObj) (p : MutantPoolObj) (m : MutantObjectCandidate) :
    (p, m) ∈ MutantScan.generate_hits prof verbosity pools ↔
      p ∈ pools ∧ runChecks (PoolScanMutant.checks prof) p.header = true ∧
        m ∈ p.objects ∧ ¬ (verbosity < 5 ∧ m.name = "") := by
  unfold MutantScan.generate_hits
  simp only [List.mem_flatMap, List.mem_map, List.mem_filter, Prod.mk.injEq,
    Bool.not_eq_true', Bool.and_eq_false_iff, decide_eq_false_iff_not,
    beq_eq_false_iff_ne, ne_eq]
  constructor
  · rintro ⟨q, ⟨hq, hchk⟩, g, ⟨hg, hsup⟩, hqp, hgm⟩
    subst hqp; subst hgm
    refine ⟨hq, hchk, hg, ?_⟩
    rintro ⟨hv, hn⟩
    rcases hsup with h | h
    · exact h hv
    · exact h hn
  · rintro ⟨hp, hchk, hm, hsup⟩
    refine ⟨p, ⟨hp, hchk⟩, m, ⟨hm, ?_⟩, rfl, rfl⟩
    by_cases hv : verbosity < 5
    · exact Or.inr (fun hn => hsup ⟨hv, hn⟩)
    · exact Or.inl hv

/-- Claim C7: with verbosity below 5 an unnamed mutant that passed the
check chain is suppressed and yields no hit; with verbosity 5 or greater,
a candidate (named or not) is yielded exactly like any other. -/
theorem mutantscan_verbosity_suppression (prof : Profile) (verbosity : Nat)
    (pools : List MutantPoolObj) (p : MutantPoolObj) (m : MutantObjectCandidate)
    (hp : p ∈ pools)
    (hchk : runChecks (PoolScanMutant.checks prof) p.header = true)
    (hm : m ∈ p.objects) :
    (verbosity < 5 → m.name = "" →
      (p, m) ∉ MutantScan.generate_hits prof verbosity pools) ∧
    (5 ≤ verbosity → (p, m) ∈ MutantScan.generate_hits prof verbosity pools) := by
  constructor
  · intro hv hn hmem
    rw [mem_mutantScan_generate_hits_iff] at hmem
    exact hmem.2.2.2 ⟨hv, hn⟩
  · intro hv
    rw [mem_mutantScan_generate_hits_iff]
    exact ⟨hp, hchk, hm, fun hc => by omega⟩

/-- An unnamed mutant candidate with a kernel-range owning thread. -/
def exMutant : MutantObjectCandidate :=
  { name := "", ownerThread := 0x80001000, signalState := 1,
    pointerCount := 3, handleCount := 2, objOffset := 200 }

/-- A mutant pool allocation passing `PoolScanMutant`'s chain under
`exProfile`, holding the unnamed `exMutant`. -/
def exMutantPool : MutantPoolObj :=
  { header := { tag := 4, declaredSize := 12, state := .nonPaged, poolIndex := 0 },
    freePool := false,
    objects := [exMutant] }

/-- Witness for C7 at a concrete input: the unnamed mutant is suppressed at
verbosity 1 and emitted at verbosity 5. -/
theorem mutantscan_verbosity_suppression_witness :
    (exMutantPool, exMutant) ∉ MutantScan.generate_hits exProfile 1 [exMutantPool] ∧
    (exMutantPool, exMutant) ∈ MutantScan.generate_hits exProfile 5 [exMutantPool] :=
  ⟨(mutantscan_verbosity_suppression exProfile 1 [exMutantPool] exMutantPool
      exMutant (List.mem_singleton.mpr rfl) (by decide)
      (List.mem_singleton.mpr rfl)).1 (by decide) rfl,
   (mutantscan_verbosity_suppression exProfile 5 [exMutantPool] exMutantPool
      exMutant (List.mem_singleton.mpr rfl) (by decide)
      (List.mem_singleton.mpr rfl)).2 (by decide)⟩

/-- Claim C8: `MutantScan.render` emits one row per hit (nothing is dropped
at this stage), and a row's CID column is the resolved
process:thread pair exactly when its owning-thread value exceeds
`0x80000000`, and the empty string otherwise. -/
theorem mutantscan_render_cid (prof : Profile) (verbosity : Nat)
    (pools : List MutantPoolObj) (resolver : Nat → Nat × Nat) (r : MutantRow)
    (h : r ∈ MutantScan.render prof verbosity pools resolver) :
    (MutantScan.render prof verbosity pools resolver).length =
      (MutantScan.generate_hits prof verbosity pools).length ∧
    (0x80000000 < r.thread →
      r.cid = toString (resolver r.thread).1 ++ ":" ++
        toString (resolver r.thread).2) ∧
    (r.thread ≤ 0x80000000 → r.cid = "") := by
  obtain ⟨pm, hpm, hr⟩ := List.mem_map.mp h
  subst hr
  refine ⟨List.length_map _ _, ?_, ?_⟩
  · intro hthread
    have hgt : 0x80000000 < pm.2.ownerThread := hthread
    show (if 0x80000000 < pm.2.ownerThread then
        toString (resolver pm.2.ownerThread).1 ++ ":" ++
          toString (resolver pm.2.ownerThread).2
      else "") =
      toString (resolver pm.2.ownerThread).1 ++ ":" ++
        toString (resolver pm.2.ownerThread).2
    rw [if_pos hgt]
  · intro hthread
    have hle : pm.2.ownerThread ≤ 0x80000000 := hthread
    show (if 0x80000000 < pm.2.ownerThread then
        toString (resolver pm.2.ownerThread).1 ++ ":" ++
          toString (resolver pm.2.ownerThread).2
      else "") = ""
    rw [if_neg (by omega)]

/-- A fixed owning-thread resolver used by the C8 witness: every kernel
thread resolves to process 8, thread 9. -/
def exResolver : Nat → Nat × Nat := fun _ => (8, 9)

/-- The row `MutantScan.render` produces for `(exMutantPool, exMutant)`
under `exResolver`. -/
def exMutantRow : MutantRow :=
  { allocated := "", offsetP := 200, ptrCount := 3, hndCount := 2,
    signal := 1, thread := 0x80001000, cid := "8:9", name := "" }

/-- Witness for C8 at a concrete input: the render stage emits one row per
hit and the kernel-range owning thread yields the resolved CID pair. -/
theorem mutantscan_render_cid_witness :
    (MutantScan.render exProfile 5 [exMutantPool] exResolver).length =
      (MutantScan.generate_hits exProfile 5 [exMutantPool]).length ∧
    exMutantRow.cid = toString (exResolver exMutantRow.thread).1 ++ ":" ++
      toString (exResolver exMutantRow.thread).2 :=
  ⟨(mutantscan_render_cid exProfile 5 [exMutantPool] exResolver exMutantRow
      (by decide)).1,
   (mutantscan_render_cid exProfile 5 [exMutantPool] exResolver exMutantRow
      (by decide)).2.1 (by decide)⟩

/-- Claim C9: the kernel/user boundary of the process scanner falls back to
`0x80000000` when `MmSystemRangeStart` is absent or resolves to 0, and is
the constant's value when it resolves to a nonzero value. -/
theorem psscan_kernel_boundary_constant (prof : Profile) (pae : Bool) :
    ((prof.mmSystemRangeStart = none ∨ prof.mmSystemRangeStart = some 0) →
      (PoolScanProcess.init prof pae).kernel = 0x80000000) ∧
    (∀ v, prof.mmSystemRangeStart = some v → v ≠ 0 →
      (PoolScanProcess.init prof pae).kernel = v) := by
  constructor
  · rintro (h | h) <;> simp [PoolScanProcess.init, h]
  · intro v hv hne
    simp [PoolScanProcess.init, hv, hne]

/-- `exProfile` with `MmSystemRangeStart` resolving to `0xC0000000`. -/
def exProfileRange : Profile :=
  { exProfile with mmSystemRangeStart := some 0xC0000000 }

/-- Witness for C9 at concrete inputs: absent constant gives the
`0x80000000` fallback; a nonzero constant gives its own value. -/
theorem psscan_kernel_boundary_constant_witness :
    (PoolScanProcess.init exProfile false).kernel = 0x80000000 ∧
    (PoolScanProcess.init exProfileRange false).kernel = 0xC0000000 :=
  ⟨(psscan_kernel_boundary_constant exProfile false).1 (Or.inl rfl),
   (psscan_kernel_boundary_constant exProfileRange false).2 0xC0000000 rfl
     (by decide)⟩

/-- Claim C10: the symlink check chain has no pool-index check, so a
symlink candidate with matching tag and sufficient size passes it whatever
its pool index and state; the file, driver, mutant and process chains each
carry `CheckPoolIndex value=0` and reject any candidate whose pool index
is nonzero. -/
theorem symlink_checks_no_pool_index (prof : Profile) (c : PoolHeaderCandidate) :
    (∀ v, Check.checkPoolIndex v ∉ PoolScanSymlink.checks prof) ∧
    (Check.checkPoolIndex 0 ∈ PoolScanFile.checks prof ∧
      Check.checkPoolIndex 0 ∈ PoolScanDriver.checks prof ∧
      Check.checkPoolIndex 0 ∈ PoolScanMutant.checks prof ∧
      Check.checkPoolIndex 0 ∈ PoolScanProcess.checks prof) ∧
    (c.tag = prof.symlinkPoolTag → prof.symbolicLinkSize ≤ c.declaredSize →
      runChecks (PoolScanSymlink.checks prof) c = true) ∧
    (¬ c.poolIndex = 0 →
      runChecks (PoolScanFile.checks prof) c = false ∧
      runChecks (PoolScanDriver.checks prof) c = false ∧
      runChecks (PoolScanMutant.checks prof) c = false ∧
      runChecks (PoolScanProcess.checks prof) c = false) := by
  refine ⟨?_, ?_, ?_, ?_⟩
  · intro v
    simp [PoolScanSymlink.checks]
  · simp [PoolScanFile.checks, PoolScanDriver.checks, PoolScanMutant.checks,
      PoolScanProcess.checks]
  · intro htag hsize
    cases hst : c.state <;>
      simp [runChecks, PoolScanSymlink.checks, Check.eval, htag, hsize, hst]
  · intro hidx
    have hbeq : (c.poolIndex == 0) = false := beq_eq_false_iff_ne.mpr hidx
    refine ⟨?_, ?_, ?_, ?_⟩ <;>
      simp [runChecks, PoolScanFile.checks, PoolScanDriver.checks,
        PoolScanMutant.checks, PoolScanProcess.checks, Check.eval, hbeq]

/-- Witness for C10 at a concrete input: a symlink-tagged candidate with
pool index 7 passes the symlink chain and fails the process chain. -/
theorem symlink_checks_no_pool_index_witness :
    runChecks (PoolScanSymlink.checks exProfile)
      { tag := 3, declaredSize := 8, state := .free, poolIndex := 7 } = true ∧
    runChecks (PoolScanProcess.checks exProfile)
      { tag := 3, declaredSize := 8, state := .free, poolIndex := 7 } = false :=
  ⟨(symlink_checks_no_pool_index exProfile
      { tag := 3, declaredSize := 8, state := .free, poolIndex := 7 }).2.2.1
     rfl (by decide),
   ((symlink_checks_no_pool_index exProfile
      { tag := 3, declaredSize := 8, state := .free, poolIndex := 7 }).2.2.2
     (by decide)).2.2.2⟩

/-- One task of the authoritative `pslist` enumeration (external, spec
section 6): the virtual offset identifying the `_EPROCESS` object and its
`UniqueProcessId`. -/
structure PsTask where
  objOffset : Nat
  uniqueProcessId : Nat
deriving DecidableEq, Repr

/-- A memory run handed to `PSScan.collect` by `generate_memory_ranges`:
whether its data type is `"PhysicalAS"` and the process pool allocations
the scanner finds in it. -/
structure Run where
  isPhysical : Bool
  pools : List ProcessPoolObj
deriving DecidableEq, Repr

/-- One row yielded by `PSScan.collect`, in the source's yield order:
`FreePool` marker, the eprocess candidate, the virtual offset, parent pid,
directory table base, the status flags, and the timestamps. -/
structure PsRow where
  allocated : String
  eprocess : EProcessCandidate
  offsetV : Nat
  ppid : Nat
  pdb : Nat
  stat : String
  createTime : Nat
  exitTime : Nat
deriving DecidableEq, Repr

namespace PSScan

/-- The `known_eprocess` set `PSScan.collect` captures once from the
authoritative listing before scanning: the virtual offsets identifying the
live `_EPROCESS` objects. -/
def knownEprocessSet (pslist : List PsTask) : List Nat :=
  pslist.map PsTask.objOffset

/-- The `known_pids` set `PSScan.collect` captures once from the
authoritative listing before scanning. -/
def knownPidSet (pslist : List PsTask) : List Nat :=
  pslist.map PsTask.uniqueProcessId

/-- The row construction in the loop body of `PSScan.collect`: translate
the candidate to the virtual coordinate space when the run is physical
(`virtual_process_from_physical_offset`, external, carried as
`translate`), then append flag `"E"` when the translated object is in the
captured `known_eprocess` set and flag `"P"` when the candidate's
`UniqueProcessId` is in the captured `known_pids` set. -/
def mkRow (knownEprocess knownPids : List Nat)
    (translate : EProcessCandidate → Nat) (isPhysical : Bool)
    (pe : ProcessPoolObj × EProcessCandidate) : PsRow :=
  let virtualOffset := if isPhysical then translate pe.2 else pe.2.objOffset
  let known := (if virtualOffset ∈ knownEprocess then "E" else "") ++
    (if pe.2.uniqueProcessId ∈ knownPids then "P" else "")
  { allocated := if pe.1.freePool then "F" else ""
    eprocess := pe.2
    offsetV := virtualOffset
    ppid := pe.2.inheritedFromUniqueProcessId
    pdb := pe.2.directoryTableBase
    stat := known
    createTime := pe.2.createTime
    exitTime := pe.2.exitTime }

/-- `PSScan.collect`: capture `known_eprocess` and `known_pids` exactly
once from the authoritative listing, before any run is scanned; then, for
each run, scan it with a `PoolScanProcess` built from the profile and the
`pae` capability and emit one row per hit through `mkRow` against those
captured sets. -/
def collect (prof : Profile) (pae : Bool) (pslist : List PsTask)
    (translate : EProcessCandidate → Nat) (runs : List Run) : List PsRow :=
  let knownEprocess := knownEprocessSet pslist
  let knownPids := knownPidSet pslist
  runs.flatMap (fun run =>
    let scanner := PoolScanProcess.init prof pae
    (PoolScanProcess.scan scanner run.pools).map
      (mkRow knownEprocess knownPids translate run.isPhysical))

end PSScan

/-- Claim C1: every row `PSScan.collect` yields carries status flags
computed against the sets captured from the authoritative listing before
scanning — the row's `stat` field contains `'E'` exactly when the
translated virtual process offset is a member of the captured
`known_eprocess` set and, independently, contains `'P'` exactly when the
candidate's `UniqueProcessId` is a member of the captured `known_pids`
set. -/
theorem psscan_collect_known_flags (prof : Profile) (pae : Bool)
    (pslist : List PsTask) (translate : EProcessCandidate → Nat)
    (runs : List Run) (r : PsRow)
    (h : r ∈ PSScan.collect prof pae pslist translate runs) :
    ('E' ∈ r.stat.data ↔ r.offsetV ∈ PSScan.knownEprocessSet pslist) ∧
    ('P' ∈ r.stat.data ↔
      r.eprocess.uniqueProcessId ∈ PSScan.knownPidSet pslist) := by
  unfold PSScan.collect at h
  obtain ⟨run, hrun, hmap⟩ := List.mem_flatMap.mp h
  obtain ⟨pe, hpe, hr⟩ := List.mem_map.mp hmap
  subst hr
  have hstat : (PSScan.mkRow (PSScan.knownEprocessSet pslist)
      (PSScan.knownPidSet pslist) translate run.isPhysical pe).stat =
      (if (if run.isPhysical then translate pe.2 else pe.2.objOffset) ∈
          PSScan.knownEprocessSet pslist then "E" else "") ++
      (if pe.2.uniqueProcessId ∈ PSScan.knownPidSet pslist then "P"
        else "") := rfl
  have hoff : (PSScan.mkRow (PSScan.knownEprocessSet pslist)
      (PSScan.knownPidSet pslist) translate run.isPhysical pe).offsetV =
      (if run.isPhysical then translate pe.2 else pe.2.objOffset) := rfl
  have heproc : (PSScan.mkRow (PSScan.knownEprocessSet pslist)
      (PSScan.knownPidSet pslist) translate run.isPhysical pe).eprocess =
      pe.2 := rfl
  rw [hstat, hoff, heproc]
  by_cases hE : (if run.isPhysical then translate pe.2 else pe.2.objOffset) ∈
      PSScan.knownEprocessSet pslist <;>
    by_cases hP : pe.2.uniqueProcessId ∈ PSScan.knownPidSet pslist
  · rw [if_pos hE, if_pos hP]
    exact ⟨iff_of_true (by decide) hE, iff_of_true (by decide) hP⟩
  · rw [if_pos hE, if_neg hP]
    exact ⟨iff_of_true (by decide) hE, iff_of_false (by decide) hP⟩
  · rw [if_neg hE, if_pos hP]
    exact ⟨iff_of_false (by decide) hE, iff_of_true (by decide) hP⟩
  · rw [if_neg hE, if_neg hP]
    exact ⟨iff_of_false (by decide) hE, iff_of_false (by decide) hP⟩

/-- Authoritative listing for the C1 witness: one live task at virtual
offset 100 with pid 7 (matching `exEproc`). -/
def exPslist : List PsTask :=
  [{ objOffset := 100, uniqueProcessId := 7 }]

/-- Identity translation used by the C1 witness (its run is virtual, so it
is never consulted). -/
def exTranslate : EProcessCandidate → Nat := fun e => e.objOffset

/-- A virtual memory run holding `exPool` for the C1 witness. -/
def exRun : Run := { isPhysical := false, pools := [exPool] }

/-- The row `PSScan.collect` yields for `exEproc` in `exRun`: a process
known both by address and by pid, so the flags are `"EP"`. -/
def exPsRow : PsRow :=
  { allocated := "", eprocess := exEproc, offsetV := 100, ppid := 1,
    pdb := 0x1000, stat := "EP", createTime := 5, exitTime := 0 }

/-- Witness for C1 at a concrete input: the row scanned for the known
process carries both flags, each equivalent to the corresponding
membership in the pre-captured sets. -/
theorem psscan_collect_known_flags_witness :
    ('E' ∈ exPsRow.stat.data ↔
      exPsRow.offsetV ∈ PSScan.knownEprocessSet exPslist) ∧
    ('P' ∈ exPsRow.stat.data ↔
      exPsRow.eprocess.uniqueProcessId ∈ PSScan.knownPidSet exPslist) :=
  psscan_collect_known_flags exProfile false exPslist exTranslate [exRun]
    exPsRow (by decide)
